import Mathlib

/-!
Verification development for the "Research Article Generator" application
(src/ArticleGenerator1.py): a single-file Streamlit app that loads and saves
a JSON prompt configuration, resolves an Azure OpenAI credential from the
environment or a Key Vault, probes the Azure endpoint, and runs a three-task
crew pipeline over an uploaded transcript.

The Python code is shallowly embedded below.  External effects are made
explicit:
* the filesystem is a map from path to file content; a file's text is
  abstracted as either valid JSON (represented by its parse) or malformed
  text, so the standard library's `json.load`/`json.dump` pair is treated
  as a trusted serializer;
* the process environment is a map from variable name to `Option String`
  (`none` = unset);
* each remote interaction (Key Vault secret fetch, connectivity probe,
  agent construction, `crew.kickoff`) is an oracle parameter of type
  `Except`, standing for the external call either returning a value or
  raising a Python exception carrying a message.
Streamlit UI calls (`st.error`, `st.success`, ...) are recorded as events
in a trace so that claims about what is reported, and in which order the
network is touched, can be stated.
-/

mutual
/-- Python-side JSON values (the results of `json.load` and arguments of
`json.dump`).  Object fields keep their insertion order, as Python dicts
and the `json` module do; keys are strings. -/
inductive Json where
  | null : Json
  | bool (b : Bool) : Json
  | num (n : Int) : Json
  | str (s : String) : Json
  | arr (elems : JsonList) : Json
  | obj (fields : JsonFields) : Json
deriving Repr, DecidableEq

/-- A list of JSON values (a JSON array's elements). -/
inductive JsonList where
  | nil : JsonList
  | cons (head : Json) (tail : JsonList) : JsonList
deriving Repr, DecidableEq

/-- The ordered key/value fields of a JSON object. -/
inductive JsonFields where
  | nil : JsonFields
  | cons (key : String) (val : Json) (tail : JsonFields) : JsonFields
deriving Repr, DecidableEq
end

/-- Build an object's field list from a Lean list of pairs. -/
def JsonFields.ofList : List (String × Json) → JsonFields
  | [] => JsonFields.nil
  | (k, v) :: rest => JsonFields.cons k v (JsonFields.ofList rest)

/-- Build a JSON object from a Lean list of key/value pairs. -/
def Json.mkObj (l : List (String × Json)) : Json :=
  Json.obj (JsonFields.ofList l)

/-- Whether an object's field list binds a key (`k in d` on a Python dict). -/
def JsonFields.hasKey : JsonFields → String → Bool
  | JsonFields.nil, _ => false
  | JsonFields.cons k _ rest, key => k == key || JsonFields.hasKey rest key

/-- Whether a JSON value is a dict binding the given key; a non-dict binds
no keys. -/
def Json.hasKey : Json → String → Bool
  | Json.obj fields, key => JsonFields.hasKey fields key
  | _, _ => false

/-- Python exceptions that the config helpers can raise. -/
inductive PyError where
  | jsonDecodeError : PyError
deriving Repr, DecidableEq

/-- The contents of one file on disk: either text that parses as JSON
(abstracted by the parsed value) or text that does not. -/
inductive FileData where
  | jsonData (v : Json) : FileData
  | malformedData : FileData
deriving Repr, DecidableEq

/-- The filesystem: a map from path to file contents (`none` = no file). -/
def FS : Type := String → Option FileData

/-- The fixed path used by both `load_config` and `save_config`
(`"agent_task_config.json"` in the source). -/
def configPath : String := "agent_task_config.json"

/-- `load_config` (ArticleGenerator1.py lines 43-48): opens the fixed path
and returns `json.load` of it; `FileNotFoundError` is caught and yields the
empty dict `{}`; a JSON decoding error is not caught and propagates. -/
def load_config (fs : FS) : Except PyError Json :=
  match fs configPath with
  | none => Except.ok (Json.obj JsonFields.nil)
  | some (FileData.jsonData v) => Except.ok v
  | some FileData.malformedData => Except.error PyError.jsonDecodeError

/-- `save_config` (lines 50-52): opens the fixed path in write mode
(truncating whatever was there) and writes `json.dump(config)`. -/
def save_config (config : Json) (fs : FS) : FS :=
  fun p => if p = configPath then some (FileData.jsonData config) else fs p

/-- Python truthiness of an optional string, as used by
`if azure_api_key:` and `if key_vault_name:` on the result of
`os.getenv`: `None` and the empty string are falsy. -/
def pyTruthy : Option String → Bool
  | none => false
  | some s => !s.isEmpty

/-- The observable outcome of one call to `get_azure_credentials`:
the returned value, how many times the Key Vault was queried, and the
messages reported through `st.error`. -/
structure CredOutcome where
  result : Option String
  kvCalls : Nat
  errorsReported : List String
deriving Repr, DecidableEq

/-- `get_azure_credentials` (lines 20-40).  `env` is the process
environment (`os.getenv`).  `kv` is the Key Vault oracle: the outcome of
`SecretClient(...).get_secret("AZURE-OPENAI-API-KEY").value`, either the
secret string or a raised exception with message `e`; the surrounding
`try`/`except` catches any such exception, reports it via `st.error`, and
returns `None`. -/
def get_azure_credentials (env : String → Option String)
    (kv : Except String String) : CredOutcome :=
  let azure_api_key := env "AZURE_OPENAI_API_KEY"
  if pyTruthy azure_api_key then
    { result := azure_api_key, kvCalls := 0, errorsReported := [] }
  else
    let key_vault_name := env "AZURE_KEY_VAULT_NAME"
    if pyTruthy key_vault_name then
      match kv with
      | Except.ok secret =>
          { result := some secret, kvCalls := 1, errorsReported := [] }
      | Except.error e =>
          { result := none, kvCalls := 1,
            errorsReported := ["Error getting Azure credentials: " ++ e] }
    else
      { result := none, kvCalls := 0, errorsReported := [] }

/-- Python truthiness of a value returned by `json.load`, as used by
`config or {...}` (line 110): `None`, `False`, `0`, and empty strings,
arrays and dicts are falsy; everything else is truthy. -/
def Json.truthy : Json → Bool
  | Json.null => false
  | Json.bool b => b
  | Json.num n => n != 0
  | Json.str s => !s.isEmpty
  | Json.arr JsonList.nil => false
  | Json.arr (JsonList.cons _ _) => true
  | Json.obj JsonFields.nil => false
  | Json.obj (JsonFields.cons _ _ _) => true

/-- The built-in default prompt configuration (lines 110-131). -/
def defaultPrompts : Json :=
  Json.mkObj
    [("planner", Json.mkObj
        [("role", Json.str "Content Planner"),
         ("goal", Json.str
            "Plan engaging and factually accurate content on the given topic"),
         ("backstory", Json.str
            "You\x27re working on planning a research report about a given topic.")]),
     ("writer", Json.mkObj
        [("role", Json.str "Content Writer"),
         ("goal", Json.str
            "Write insightful and factually accurate research report"),
         ("backstory", Json.str
            "You\x27re working on writing a new opinion piece about a given topic.")]),
     ("editor", Json.mkObj
        [("role", Json.str "Editor"),
         ("goal", Json.str "Edit a given blog post"),
         ("backstory", Json.str
            "You are an editor who receives a research article from the Content Writer.")]),
     ("tasks", Json.mkObj
        [("plan", Json.str "Plan content for the topic"),
         ("write", Json.str "Write a research article based on the content plan"),
         ("edit", Json.str "Edit and finalize the research article")])]

/-- Initialization of `st.session_state['prompts']` (lines 109-131):
`config or {...defaults...}` keeps the loaded configuration whenever it is
truthy (any non-empty dict, whatever its keys) and falls back to the
defaults otherwise. -/
def initPrompts (config : Json) : Json :=
  if Json.truthy config then config else defaultPrompts

/-- The prompt configuration as the generate action reads it
(`st.session_state['prompts'][...][...]`, lines 181-221), assuming the
standard shape with the four top-level keys present. -/
structure AgentPrompt where
  role : String
  goal : String
  backstory : String
deriving Repr, DecidableEq

/-- The `tasks` sub-mapping: one description string per task name. -/
structure TaskDescriptions where
  plan : String
  write : String
  edit : String
deriving Repr, DecidableEq

/-- The whole session prompt configuration, in its standard shape. -/
structure Prompts where
  planner : AgentPrompt
  writer : AgentPrompt
  editor : AgentPrompt
  tasks : TaskDescriptions
deriving Repr, DecidableEq

/-- The crew assembled by the generate action (lines 181-229): the agent
roles and, in pipeline order (plan, write, edit), the task description
strings passed to the `Task` constructors. -/
structure CrewSpec where
  agentRoles : List String
  taskDescriptions : List String
deriving Repr, DecidableEq

/-- Crew construction (lines 181-229).  Only the `plan` task interpolates
the transcript: its description is the f-string
`f"{...tasks.plan}: {transcripts}"`; the `write` and `edit` descriptions
are the configured strings unchanged. -/
def buildCrew (p : Prompts) (transcripts : String) : CrewSpec :=
  { agentRoles := [p.planner.role, p.writer.role, p.editor.role],
    taskDescriptions :=
      [p.tasks.plan ++ ": " ++ transcripts, p.tasks.write, p.tasks.edit] }

/-- Observable events of one activation of the generate action, in order.
Each constructor corresponds to one fixed call site in the source; the
message texts are recorded in the comments. -/
inductive GenEvent where
  /-- `st.error("Please upload a transcript file.")`, line 165. -/
  | uploadValidationError : GenEvent
  /-- `st.error("Please enter your Azure OpenAI API Key.")`, line 167. -/
  | credentialValidationError : GenEvent
  /-- The connectivity probe: the `requests.post` chat request issued by
  `setup_azure_openai`, lines 87-97 (the only network call besides
  `crew.kickoff`). -/
  | probeCall : GenEvent
  /-- `st.error(f"Azure OpenAI Setup Error: ...")`, line 101. -/
  | setupError (msg : String) : GenEvent
  /-- `st.error("Failed to setup Azure OpenAI connection. ...")`, line 174. -/
  | setupFailedError : GenEvent
  /-- `st.success("API connection successful!")`, line 177. -/
  | apiSuccess : GenEvent
  /-- `st.error(f"Error in agent/task setup: ...")` and the follow-up
  detailed-trace message, lines 240-241. -/
  | agentSetupError (msg : String) : GenEvent
  /-- The `crew.kickoff()` call, line 233 (the pipeline invocation). -/
  | kickoffCall : GenEvent
  /-- `st.success("Research article generated successfully!")`, line 236. -/
  | generatedSuccess : GenEvent
  /-- `st.markdown(result)`, line 237. -/
  | resultShown (text : String) : GenEvent
deriving Repr, DecidableEq

/-- `setup_azure_openai` (lines 78-102).  `probe` is the outcome of the
`requests.post` test request plus `raise_for_status`: `Except.ok ()` when
the endpoint answers with a success status, `Except.error e` when the
request or the status check raises.  Returns the boolean result together
with the events of the call (the probe request always happens; on failure
the exception is caught and reported, and `False` is returned). -/
def setup_azure_openai (probe : Except String Unit) :
    Bool × List GenEvent :=
  match probe with
  | Except.ok _ => (true, [GenEvent.probeCall])
  | Except.error e =>
      (false, [GenEvent.probeCall, GenEvent.setupError e])

/-- The generate action (lines 163-251), triggered by the
"Generate Research Article" button.  Inputs:
* `uploaded_file`: `none` when no file was uploaded (the Streamlit
  `UploadedFile` object is always truthy, so `if not uploaded_file:` fires
  exactly on `None`); `some t` carries the decoded transcript text;
* `azure_api_key`: the credential string at button time (empty = missing,
  matching `elif not azure_api_key:`);
* `prompts`: the session prompt configuration;
* `probe`: the connectivity-probe oracle (see `setup_azure_openai`);
* `construct`: the outcome of the `Agent`/`Task`/`Crew` constructor calls
  (external library code), raising with message `e` on failure;
* `pipeline`: the outcome of `crew.kickoff()`.
Returns the event trace and the crew value constructed during the run
(`none` when construction was never reached or raised).  `st.stop()` after
a failed probe is modelled as ending the action.  Exceptions from
`construct` and `pipeline` are caught by the inner handler (lines 239-241)
which reports them. -/
def generateAction (uploaded_file : Option String) (azure_api_key : String)
    (prompts : Prompts) (probe : Except String Unit)
    (construct : Except String Unit) (pipeline : Except String String) :
    List GenEvent × Option CrewSpec :=
  match uploaded_file with
  | none => ([GenEvent.uploadValidationError], none)
  | some transcripts =>
    if azure_api_key.isEmpty then
      ([GenEvent.credentialValidationError], none)
    else
      match setup_azure_openai probe with
      | (false, setupEvents) =>
          (setupEvents ++ [GenEvent.setupFailedError], none)
      | (true, setupEvents) =>
          let headEvents := setupEvents ++ [GenEvent.apiSuccess]
          match construct with
          | Except.error e =>
              (headEvents ++ [GenEvent.agentSetupError e], none)
          | Except.ok _ =>
              let crew := buildCrew prompts transcripts
              match pipeline with
              | Except.ok result =>
                  (headEvents ++
                     [GenEvent.kickoffCall, GenEvent.generatedSuccess,
                      GenEvent.resultShown result],
                   some crew)
              | Except.error e =>
                  (headEvents ++
                     [GenEvent.kickoffCall, GenEvent.agentSetupError e],
                   some crew)

/-- C1: for every configuration mapping `x`, `save_config(x)` followed by
`load_config()` returns a mapping equal to `x`: both functions address the
same fixed path `"agent_task_config.json"`, and the write replaces whatever
was there before. -/
theorem C1_save_load_roundtrip (fields : JsonFields) (fs : FS) :
    load_config (save_config (Json.obj fields) fs) =
      Except.ok (Json.obj fields) := by
  simp [load_config, save_config]

/-- C2: whenever the environment binds `AZURE_OPENAI_API_KEY` to a
non-empty string `s`, `get_azure_credentials` returns exactly `s`, for
every state of `AZURE_KEY_VAULT_NAME` and every behaviour of the Key Vault
(which is not queried at all). -/
theorem C2_env_key_wins (env : String → Option String)
    (kv : Except String String) (s : String)
    (henv : env "AZURE_OPENAI_API_KEY" = some s) (hne : s ≠ "") :
    (get_azure_credentials env kv).result = some s ∧
    (get_azure_credentials env kv).kvCalls = 0 := by
  have hs : s.isEmpty = false := by
    cases hcase : s.isEmpty with
    | false => rfl
    | true => exact absurd ((String.isEmpty_iff s).mp hcase) hne
  simp [get_azure_credentials, henv, pyTruthy, hs]

/-- Witness for C2 at a concrete environment: the primary variable holds
`"sk-123"`, the vault variable is also set, and the vault would fail. -/
theorem C2_env_key_wins_witness :
    (get_azure_credentials
        (fun k => if k = "AZURE_OPENAI_API_KEY" then some "sk-123"
                  else some "vault1")
        (Except.error "kv down")).result = some "sk-123" ∧
    (get_azure_credentials
        (fun k => if k = "AZURE_OPENAI_API_KEY" then some "sk-123"
                  else some "vault1")
        (Except.error "kv down")).kvCalls = 0 :=
  C2_env_key_wins _ _ "sk-123" (by simp) (by decide)

/-- An environment whose primary credential variable is absent while the
secret-store variable is set — but set to the empty string. -/
def envEmptyVaultName : String → Option String :=
  fun k => if k = "AZURE_KEY_VAULT_NAME" then some "" else none

/-- Counterexample to C3 as stated: with `AZURE_OPENAI_API_KEY` absent and
`AZURE_KEY_VAULT_NAME` set (to `""`), the code's `if key_vault_name:`
truthiness test fails, so the remote secret store is attempted zero times,
not exactly once. -/
theorem C3_counterexample :
    envEmptyVaultName "AZURE_OPENAI_API_KEY" = none ∧
    envEmptyVaultName "AZURE_KEY_VAULT_NAME" = some "" ∧
    (get_azure_credentials envEmptyVaultName (Except.ok "secret")).kvCalls
      = 0 ∧
    (get_azure_credentials envEmptyVaultName (Except.ok "secret")).kvCalls
      ≠ 1 := by
  refine ⟨by decide, by decide, by decide, by decide⟩

/-- C3 (amended): whenever the primary credential variable is absent or
empty and the secret-store variable is set to a NON-EMPTY string, the Key
Vault is attempted exactly once, and every error raised by that attempt is
caught and reported while the function returns `None` instead of
propagating the exception. -/
theorem C3_vault_once_and_errors_caught (env : String → Option String)
    (kv : Except String String)
    (hprim : pyTruthy (env "AZURE_OPENAI_API_KEY") = false)
    (v : String) (hv : env "AZURE_KEY_VAULT_NAME" = some v) (hvne : v ≠ "") :
    (get_azure_credentials env kv).kvCalls = 1 ∧
    (∀ e, kv = Except.error e →
       (get_azure_credentials env kv).result = none ∧
       (get_azure_credentials env kv).errorsReported =
         ["Error getting Azure credentials: " ++ e]) := by
  have hvempty : v.isEmpty = false := by
    cases hcase : v.isEmpty with
    | false => rfl
    | true => exact absurd ((String.isEmpty_iff v).mp hcase) hvne
  have hred : get_azure_credentials env kv =
      (match kv with
       | Except.ok secret =>
           ({ result := some secret, kvCalls := 1, errorsReported := [] } :
              CredOutcome)
       | Except.error e =>
           { result := none, kvCalls := 1,
             errorsReported := ["Error getting Azure credentials: " ++ e] }) := by
    simp only [get_azure_credentials]
    rw [hprim, hv]
    simp [pyTruthy, hvempty]
  cases kv with
  | ok secret =>
      refine ⟨by rw [hred], ?_⟩
      intro e he
      cases he
  | error e0 =>
      refine ⟨by rw [hred], ?_⟩
      intro e he
      cases he
      exact ⟨by rw [hred], by rw [hred]⟩

/-- Witness for the amended C3 at a concrete input: primary variable
unset, vault name `"myvault"`, and a failing vault. -/
theorem C3_vault_once_and_errors_caught_witness :
    (get_azure_credentials
        (fun k => if k = "AZURE_KEY_VAULT_NAME" then some "myvault" else none)
        (Except.error "boom")).kvCalls = 1 ∧
    (∀ e, (Except.error "boom" : Except String String) = Except.error e →
       (get_azure_credentials
           (fun k => if k = "AZURE_KEY_VAULT_NAME" then some "myvault"
                     else none)
           (Except.error "boom")).result = none ∧
       (get_azure_credentials
           (fun k => if k = "AZURE_KEY_VAULT_NAME" then some "myvault"
                     else none)
           (Except.error "boom")).errorsReported =
         ["Error getting Azure credentials: " ++ e]) :=
  C3_vault_once_and_errors_caught _ _ (by decide) "myvault" (by simp)
    (by decide)

/-- C4: if the fixed configuration file does not exist, `load_config`
returns the empty mapping `{}` and raises nothing (the
`FileNotFoundError` is caught). -/
theorem C4_load_missing_returns_empty (fs : FS)
    (h : fs configPath = none) :
    load_config fs = Except.ok (Json.obj JsonFields.nil) := by
  simp [load_config, h]

/-- Witness for C4 on the empty filesystem. -/
theorem C4_load_missing_returns_empty_witness :
    load_config (fun _ => none) = Except.ok (Json.obj JsonFields.nil) :=
  C4_load_missing_returns_empty (fun _ => none) rfl

/-- C5: if the configuration file exists but its text is not valid JSON,
`load_config` propagates the decoding error: the `except
FileNotFoundError` handler does not cover `json.JSONDecodeError`. -/
theorem C5_load_malformed_raises (fs : FS)
    (h : fs configPath = some FileData.malformedData) :
    load_config fs = Except.error PyError.jsonDecodeError := by
  simp [load_config, h]

/-- Witness for C5 on a filesystem whose config file is malformed. -/
theorem C5_load_malformed_raises_witness :
    load_config (fun _ => some FileData.malformedData) =
      Except.error PyError.jsonDecodeError :=
  C5_load_malformed_raises (fun _ => some FileData.malformedData) rfl

/-- Whether a JSON value binds all four fixed top-level prompt keys. -/
def hasAllPromptKeys (j : Json) : Bool :=
  Json.hasKey j "planner" && Json.hasKey j "writer" &&
    Json.hasKey j "editor" && Json.hasKey j "tasks"

/-- A non-empty (hence truthy) loaded configuration that lacks all four
prompt keys. -/
def strayConfig : Json := Json.mkObj [("foo", Json.null)]

/-- Counterexample to C8 as stated: `config or {...}` keeps any truthy
loaded mapping unchanged, so a non-empty mapping without the four keys
initializes `st.session_state['prompts']` to a mapping that binds none of
them. -/
theorem C8_counterexample :
    Json.truthy strayConfig = true ∧
    initPrompts strayConfig = strayConfig ∧
    hasAllPromptKeys (initPrompts strayConfig) = false := by
  refine ⟨rfl, rfl, by decide⟩

/-- C8 (amended): the initialized prompt mapping contains the four fixed
top-level keys whenever the value loaded at startup is falsy (in
particular the empty mapping produced for a missing file, in which case
the built-in defaults are installed) or itself already binds the four
keys; a truthy loaded mapping is used as-is. -/
theorem C8_four_keys_after_init (config : Json)
    (h : Json.truthy config = false ∨ hasAllPromptKeys config = true) :
    hasAllPromptKeys (initPrompts config) = true := by
  have hdef : hasAllPromptKeys defaultPrompts = true := by decide
  cases h with
  | inl hfalsy =>
      rw [initPrompts, hfalsy]
      simpa using hdef
  | inr hkeys =>
      rw [initPrompts]
      cases htr : Json.truthy config with
      | true => simpa using hkeys
      | false => simpa using hdef

/-- Witness for the amended C8 at the startup value for a missing file:
the empty mapping is falsy, so the defaults are installed and all four
keys are present. -/
theorem C8_four_keys_after_init_witness :
    hasAllPromptKeys (initPrompts (Json.obj JsonFields.nil)) = true :=
  C8_four_keys_after_init (Json.obj JsonFields.nil) (Or.inl rfl)

/-- A concrete prompt configuration used to instantiate theorems. -/
def samplePrompts : Prompts :=
  { planner := { role := "planner role", goal := "plan goal",
                 backstory := "plan story" },
    writer := { role := "writer role", goal := "write goal",
                backstory := "write story" },
    editor := { role := "editor role", goal := "edit goal",
                backstory := "edit story" },
    tasks := { plan := "Plan content for the topic",
               write := "Write a research article based on the content plan",
               edit := "Edit and finalize the research article" } }

/-- C6: in every run of the generate action, (a) whenever the pipeline
(`crew.kickoff`) is invoked, the connectivity probe occurred strictly
earlier in the run, and (b) whenever the run reaches the probe (a file is
uploaded, the credential is non-empty) and the probe fails, the setup
error and the failure message are reported, no crew is ever built, and
`crew.kickoff` is never invoked. -/
theorem C6_probe_before_pipeline (u : Option String) (k : String)
    (p : Prompts) (probe : Except String Unit)
    (construct : Except String Unit) (pipeline : Except String String) :
    (GenEvent.kickoffCall ∈ (generateAction u k p probe construct pipeline).1 →
       ∃ l1 l2,
         (generateAction u k p probe construct pipeline).1 =
           l1 ++ GenEvent.probeCall :: l2 ∧ GenEvent.kickoffCall ∈ l2) ∧
    (∀ t e, u = some t → k ≠ "" → probe = Except.error e →
       GenEvent.setupError e ∈
           (generateAction u k p probe construct pipeline).1 ∧
         GenEvent.setupFailedError ∈
           (generateAction u k p probe construct pipeline).1 ∧
         (generateAction u k p probe construct pipeline).2 = none ∧
         GenEvent.kickoffCall ∉
           (generateAction u k p probe construct pipeline).1) := by
  cases u with
  | none =>
      constructor
      · intro hmem
        simp [generateAction] at hmem
      · intro t e ht hkne hpe
        simp at ht
  | some t0 =>
      cases hk : k.isEmpty with
      | true =>
          constructor
          · intro hmem
            simp [generateAction, hk] at hmem
          · intro t e ht hkne hpe
            exact absurd ((String.isEmpty_iff k).mp hk) hkne
      | false =>
          cases probe with
          | error e0 =>
              constructor
              · intro hmem
                simp [generateAction, setup_azure_openai, hk] at hmem
              · intro t e ht hkne hpe
                injection hpe with he
                subst he
                refine ⟨?_, ?_, ?_, ?_⟩ <;>
                  simp [generateAction, setup_azure_openai, hk]
          | ok pu =>
              cases construct with
              | error ce =>
                  constructor
                  · intro hmem
                    simp [generateAction, setup_azure_openai, hk] at hmem
                  · intro t e ht hkne hpe
                    simp at hpe
              | ok cu =>
                  cases pipeline with
                  | ok r =>
                      constructor
                      · intro hmem
                        refine ⟨[], [GenEvent.apiSuccess, GenEvent.kickoffCall,
                          GenEvent.generatedSuccess, GenEvent.resultShown r],
                          ?_, ?_⟩
                        · simp [generateAction, setup_azure_openai, hk]
                        · simp
                      · intro t e ht hkne hpe
                        simp at hpe
                  | error pe =>
                      constructor
                      · intro hmem
                        refine ⟨[], [GenEvent.apiSuccess, GenEvent.kickoffCall,
                          GenEvent.agentSetupError pe], ?_, ?_⟩
                        · simp [generateAction, setup_azure_openai, hk]
                        · simp
                      · intro t e ht hkne hpe
                        simp at hpe

/-- Witness for C6: part (a) at a fully successful run, part (b) at a run
whose probe raises `"down"`. -/
theorem C6_probe_before_pipeline_witness :
    (∃ l1 l2,
        (generateAction (some "transcript") "key" samplePrompts
            (Except.ok ()) (Except.ok ()) (Except.ok "article")).1 =
          l1 ++ GenEvent.probeCall :: l2 ∧ GenEvent.kickoffCall ∈ l2) ∧
    (GenEvent.setupError "down" ∈
        (generateAction (some "transcript") "key" samplePrompts
            (Except.error "down") (Except.ok ()) (Except.ok "article")).1 ∧
      GenEvent.setupFailedError ∈
        (generateAction (some "transcript") "key" samplePrompts
            (Except.error "down") (Except.ok ()) (Except.ok "article")).1 ∧
      (generateAction (some "transcript") "key" samplePrompts
          (Except.error "down") (Except.ok ()) (Except.ok "article")).2 =
        none ∧
      GenEvent.kickoffCall ∉
        (generateAction (some "transcript") "key" samplePrompts
            (Except.error "down") (Except.ok ()) (Except.ok "article")).1) := by
  constructor
  · exact (C6_probe_before_pipeline (some "transcript") "key" samplePrompts
      (Except.ok ()) (Except.ok ()) (Except.ok "article")).1 (by decide)
  · exact (C6_probe_before_pipeline (some "transcript") "key" samplePrompts
      (Except.error "down") (Except.ok ()) (Except.ok "article")).2
      "transcript" "down" rfl (by decide) rfl

/-- C7: with no uploaded transcript file, the generate action reports the
upload validation error and performs no network call: neither the
connectivity probe nor the pipeline invocation appears in the run. -/
theorem C7_no_upload_no_network (k : String) (p : Prompts)
    (probe : Except String Unit) (construct : Except String Unit)
    (pipeline : Except String String) :
    (generateAction none k p probe construct pipeline).1 =
      [GenEvent.uploadValidationError] ∧
    GenEvent.probeCall ∉ (generateAction none k p probe construct pipeline).1 ∧
    GenEvent.kickoffCall ∉
      (generateAction none k p probe construct pipeline).1 := by
  refine ⟨rfl, ?_, ?_⟩ <;> simp [generateAction]

/-- C9: when the upload is missing and the credential is empty, only the
missing-upload validation error is reported (the upload check comes
first), and the missing-credential error can only ever be reported in a
run where a file was uploaded. -/
theorem C9_upload_check_first (p : Prompts) (probe : Except String Unit)
    (construct : Except String Unit) (pipeline : Except String String) :
    ((generateAction none "" p probe construct pipeline).1 =
        [GenEvent.uploadValidationError] ∧
      GenEvent.credentialValidationError ∉
        (generateAction none "" p probe construct pipeline).1) ∧
    (∀ u k, GenEvent.credentialValidationError ∈
          (generateAction u k p probe construct pipeline).1 →
        ∃ t, u = some t) := by
  refine ⟨⟨rfl, by simp [generateAction]⟩, ?_⟩
  intro u k hmem
  cases u with
  | none => simp [generateAction] at hmem
  | some t => exact ⟨t, rfl⟩

/-- Witness for C9: the second part applied at an uploaded file `"T"` and
an empty credential, where the credential error is in fact reported. -/
theorem C9_upload_check_first_witness :
    ((generateAction none "" samplePrompts (Except.ok ()) (Except.ok ())
        (Except.ok "res")).1 = [GenEvent.uploadValidationError] ∧
      GenEvent.credentialValidationError ∉
        (generateAction none "" samplePrompts (Except.ok ()) (Except.ok ())
          (Except.ok "res")).1) ∧
    (∃ t, (some "T" : Option String) = some t) := by
  constructor
  · exact (C9_upload_check_first samplePrompts (Except.ok ()) (Except.ok ())
      (Except.ok "res")).1
  · exact (C9_upload_check_first samplePrompts (Except.ok ()) (Except.ok ())
      (Except.ok "res")).2 (some "T") "" (by decide)

/-- C10: in every run of the generate action that builds the crew, the
task descriptions are, in order: the configured plan description followed
by `": "` and the transcript, then the configured write and edit
descriptions unchanged — only the plan task embeds the transcript. -/
theorem C10_only_plan_embeds_transcript (t k : String) (p : Prompts)
    (probe : Except String Unit) (construct : Except String Unit)
    (pipeline : Except String String) (crew : CrewSpec)
    (h : (generateAction (some t) k p probe construct pipeline).2 =
      some crew) :
    crew.taskDescriptions =
      [p.tasks.plan ++ ": " ++ t, p.tasks.write, p.tasks.edit] := by
  cases hk : k.isEmpty with
  | true => simp [generateAction, hk] at h
  | false =>
      cases probe with
      | error e0 => simp [generateAction, setup_azure_openai, hk] at h
      | ok pu =>
          cases construct with
          | error ce => simp [generateAction, setup_azure_openai, hk] at h
          | ok cu =>
              cases pipeline with
              | ok r =>
                  simp [generateAction, setup_azure_openai, hk] at h
                  rw [← h]
                  rfl
              | error pe =>
                  simp [generateAction, setup_azure_openai, hk] at h
                  rw [← h]
                  rfl

/-- Witness for C10 at a successful concrete run with transcript `"T"`. -/
theorem C10_only_plan_embeds_transcript_witness :
    (buildCrew samplePrompts "T").taskDescriptions =
      [samplePrompts.tasks.plan ++ ": " ++ "T", samplePrompts.tasks.write,
        samplePrompts.tasks.edit] :=
  C10_only_plan_embeds_transcript "T" "key" samplePrompts (Except.ok ())
    (Except.ok ()) (Except.ok "res") (buildCrew samplePrompts "T") rfl
